import Mathlib

/-!
Shallow embedding of the boxFixer troubleshooting agent (Python sources) in Lean 4,
together with theorems settling the specification claims about it.

Python string primitives (`str.lower`, `str.strip`, `in`, `str.split`) are modelled
on `List Char` / `String`; machinery shared between the embedded modules comes first.
-/

namespace Py

/-- Python whitespace characters recognised by `str.strip` / `str.split()` / `\s` (ASCII). -/
def isPyWs (c : Char) : Bool :=
  c = ' ' || c = '\t' || c = '\n' || c = '\r' || c = '\x0b' || c = '\x0c'

/-- Python `str.lower()` (ASCII fragment, which is all the sources use). -/
def pyLower (s : String) : String :=
  String.mk (s.data.map Char.toLower)

def dropWhileWs : List Char → List Char
  | [] => []
  | c :: cs => if isPyWs c then dropWhileWs cs else c :: cs

/-- Python `str.strip()` with no arguments: remove leading and trailing whitespace. -/
def pyStrip (s : String) : String :=
  String.mk ((dropWhileWs ((dropWhileWs s.data).reverse)).reverse)

def containsSubGo (needle : List Char) : List Char → Bool
  | [] => needle.isEmpty
  | c :: cs => needle.isPrefixOf (c :: cs) || containsSubGo needle cs

/-- Python `sub in hay` for strings: substring containment. -/
def pyContains (hay sub : String) : Bool :=
  containsSubGo sub.data hay.data

/-- Python `str.replace(old, "")` for a single character `old`: drop every occurrence. -/
def pyRemoveChar (old : Char) (s : String) : String :=
  String.mk (s.data.filter (fun c => c ≠ old))

/-- Worker for `pySplit`; the fuel argument only bounds recursion and is always
sufficient at the call site (each step consumes at least one input character). -/
def pySplitGo (sep : List Char) : Nat → List Char → List Char → List (List Char)
  | 0, s, acc => [acc.reverse ++ s]
  | _ + 1, [], acc => [acc.reverse]
  | fuel + 1, c :: cs, acc =>
    if sep ≠ [] ∧ sep.isPrefixOf (c :: cs) then
      acc.reverse :: pySplitGo sep fuel ((c :: cs).drop sep.length) []
    else
      pySplitGo sep fuel cs (c :: acc)

/-- Python `s.split(sep)` for a non-empty separator string: non-overlapping,
left-to-right splitting. -/
def pySplit (sep s : String) : List String :=
  (pySplitGo sep.data s.data.length s.data []).map String.mk

/-- Python list indexing `l[i]` at positions the sources have already guarded;
out-of-range access is handled separately where the source can actually raise. -/
def pyGet (l : List String) (i : Nat) : String :=
  l.getD i ""

/-- Python `str.split()` with no arguments: split on whitespace runs, dropping
empty fields. -/
def pySplitWsGo : List Char → List Char → List (List Char)
  | [], acc => if acc.isEmpty then [] else [acc.reverse]
  | c :: cs, acc =>
    if isPyWs c then
      if acc.isEmpty then pySplitWsGo cs [] else acc.reverse :: pySplitWsGo cs []
    else
      pySplitWsGo cs (c :: acc)

def pySplitWs (s : String) : List String :=
  (pySplitWsGo s.data []).map String.mk

end Py

/-!
Embedding of `src/tools/command_executor_tool.py`.

The deny-list uses `re.search` with `re.IGNORECASE`; the patterns only use literal
characters, `\b`, `\s+` and `\s*`, so a small matcher over exactly those tokens
captures them.  Subprocess execution is modelled by an executor oracle passed in as
a parameter; the tool returns the produced string together with the list of commands
actually handed to the executor (the "spy" of the spec's safety property).
-/

namespace CmdExec

/-- Regex-pattern tokens appearing in the deny-list of `execute_shell_command_tool`. -/
inductive RTok where
  | lit (c : Char)
  | wsPlus
  | wsStar
  | wb
deriving DecidableEq

/-- Python `\w`: ASCII alphanumeric or underscore. -/
def isWordChar (c : Char) : Bool :=
  c.isAlphanum || c = '_'

/-- Word-boundary test between the previous character (none at string start) and
the next character (none at string end). -/
def atBoundary (prev next : Option Char) : Bool :=
  (match prev with | none => false | some c => isWordChar c) !=
  (match next with | none => false | some c => isWordChar c)

/-- Match a token list against a prefix of the input, tracking the previous
character for `\b`.  Literals compare case-insensitively (`re.IGNORECASE`).
The fuel argument bounds recursion and is always sufficient at call sites. -/
def reMatch : Nat → Option Char → List RTok → List Char → Bool
  | 0, _, _, _ => false
  | _ + 1, _, [], _ => true
  | fuel + 1, _, RTok.lit c :: ps, s =>
    match s with
    | [] => false
    | d :: ds => d.toLower = c.toLower && reMatch fuel (some d) ps ds
  | fuel + 1, _, RTok.wsPlus :: ps, s =>
    match s with
    | [] => false
    | d :: ds =>
      Py.isPyWs d && (reMatch fuel (some d) ps ds || reMatch fuel (some d) (RTok.wsPlus :: ps) ds)
  | fuel + 1, prev, RTok.wsStar :: ps, s =>
    reMatch fuel prev ps s ||
      (match s with
       | [] => false
       | d :: ds => Py.isPyWs d && reMatch fuel (some d) (RTok.wsStar :: ps) ds)
  | fuel + 1, prev, RTok.wb :: ps, s =>
    atBoundary prev s.head? && reMatch fuel prev ps s

/-- Try `reMatch` at every start position (this is `re.search` truthiness). -/
def reSearchGo (p : List RTok) (fuel : Nat) (prev : Option Char) : List Char → Bool
  | [] => reMatch fuel prev p []
  | c :: cs => reMatch fuel prev p (c :: cs) || reSearchGo p fuel (some c) cs

def reSearch (p : List RTok) (s : String) : Bool :=
  reSearchGo p ((s.data.length + 1) * (p.length + 1)) none s.data

def litStr (s : String) : List RTok :=
  s.data.map RTok.lit

/-- The deny-list `dangerous_patterns` of `execute_shell_command_tool`, token for token. -/
def dangerous_patterns : List (List RTok) :=
  [ [RTok.wb] ++ litStr "rm" ++ [RTok.wsPlus] ++ litStr "-rf" ++ [RTok.wb]
  , [RTok.wb] ++ litStr "dd" ++ [RTok.wb]
  , [RTok.wb] ++ litStr "mkfs" ++ [RTok.wb]
  , [RTok.wb] ++ litStr "chmod" ++ [RTok.wsPlus] ++ litStr "777" ++ [RTok.wb]
  , [RTok.wb] ++ litStr "chown" ++ [RTok.wb]
  , [RTok.wb] ++ litStr "mkswap" ++ [RTok.wb]
  , litStr ">" ++ [RTok.wsStar] ++ litStr "/dev/"
  , litStr ">" ++ [RTok.wsStar] ++ litStr "/etc/"
  , litStr ">" ++ [RTok.wsStar] ++ litStr "/sys/"
  , litStr ">" ++ [RTok.wsStar] ++ litStr "/proc/"
  , litStr ">" ++ [RTok.wsStar] ++ litStr "/boot/"
  ]

/-- The guard `any(re.search(pattern, command, re.IGNORECASE) for pattern in dangerous_patterns)`. -/
def isDangerous (command : String) : Bool :=
  dangerous_patterns.any (fun p => reSearch p command)

/-- Possible outcomes of the `subprocess.run` call, as seen by the tool's
try/except blocks. -/
inductive ExecResult where
  | completed (returncode : Int) (stdout stderr : String)
  | timedOut
  | fileNotFound
  | permissionError
  | otherError (msg : String)

/-- The `execute_shell_command_tool` body.  `runner` stands for `subprocess.run`;
the second component of the result is the list of commands actually passed to it,
so `[]` means no subprocess was spawned. -/
def execute_shell_command_tool (runner : String → ExecResult) (command : String) :
    String × List String :=
  if isDangerous command then
    ("Error: Command blocked for security reasons.", [])
  else
    match runner command with
    | ExecResult.completed rc out err =>
      (if rc = 0 then
         (if Py.pyStrip out = "" then "Command executed successfully with no output."
          else Py.pyStrip out)
       else
         "Command failed (Exit code " ++ toString rc ++ "):\n" ++ Py.pyStrip err,
       [command])
    | ExecResult.timedOut => ("Error: Command timed out after 60 seconds.", [command])
    | ExecResult.fileNotFound =>
      ("Error: Command not found or shell cannot execute - " ++ command, [command])
    | ExecResult.permissionError =>
      ("Error: Permission denied for command - " ++ command, [command])
    | ExecResult.otherError m => ("Error executing command: " ++ m, [command])

end CmdExec

/-!
Embedding of `src/reflective_agent.py`: the session state, the six registered
demo tools, tool-call parsing and dispatch, and the state-transition functions
of the workflow graph.  Model completions (plan text, execution text, reflection
text, final text) are passed to the transitions as explicit `response` arguments,
since the model adapter is an external collaborator.
-/

namespace Agent

inductive Role where
  | human
  | ai
deriving DecidableEq

/-- A transcript entry (`HumanMessage` / `AIMessage`), reduced to role and content. -/
structure Message where
  role : Role
  content : String
deriving DecidableEq

inductive Status where
  | planning
  | executing
  | reflecting
  | finished
  | awaiting_approval
deriving DecidableEq

/-- The `AgentState` TypedDict of `reflective_agent.py`. -/
structure AgentState where
  messages : List Message
  current_plan : String
  reflection : String
  tool_history : List String
  problem_understanding : String
  status : Status
  proposed_tool : String
  user_input : String
deriving DecidableEq

/-- The fixed string returned by the `check_system_resources` tool. -/
def check_system_resources : String :=
  "\n    CPU: 78% utilized\n      - Process 'java' using 45% CPU (PID: 1234)\n      - Process 'node' using 23% CPU (PID: 2345)\n    Memory: 5.2GB/8GB used (65%)\n    Disk: \n      - /dev/sda1: 85% used (120GB/140GB)\n      - /dev/sda2: 45% used (400GB/1TB)\n    "

/-- The `analyze_logs` tool: canned per-service log lines, keyed by lowered name. -/
def analyze_logs (service_name : String) : String :=
  let logs : List (String × String) :=
    [ ("nginx", "2023-06-15 07:23:15 [error] 12345#0: *1234 connect() failed (111: Connection refused) while connecting to upstream")
    , ("docker", "2023-06-15 07:22:10 ERROR: failed to start container: Error response from daemon: OCI runtime create failed")
    , ("kubernetes", "2023-06-15 07:20:45 Failed to pull image 'myapp:latest': rpc error: code = Unknown desc = Error response from daemon")
    , ("mysql", "2023-06-15 07:18:30 [ERROR] [MY-012592] [InnoDB] Operating system error number 28 in a file operation.")
    ]
  match logs.lookup (Py.pyLower service_name) with
  | some entry => entry
  | none => "No logs found for service: " ++ service_name

/-- The `check_network_connectivity` tool: canned connectivity report. -/
def check_network_connectivity (source destination : String) : String :=
  "\n    Connectivity test from " ++ source ++ " to " ++ destination ++
  ":\n    PING " ++ destination ++
  " (10.0.0.5): 56 data bytes\n    64 bytes from 10.0.0.5: icmp_seq=0 ttl=64 time=0.85 ms\n    64 bytes from 10.0.0.5: icmp_seq=1 ttl=64 time=0.92 ms\n    64 bytes from 10.0.0.5: icmp_seq=2 ttl=64 time=0.78 ms\n    \n    --- " ++
  destination ++
  " ping statistics ---\n    3 packets transmitted, 3 packets received, 0% packet loss\n    round-trip min/avg/max = 0.78/0.85/0.92 ms\n    \n    TCP port scan shows ports 22, 80, 443 are OPEN\n    "

/-- The `check_container_status` tool: canned container report. -/
def check_container_status (container_id_or_name : String) : String :=
  "\n    Container: " ++ container_id_or_name ++
  "\n    Status: Running\n    Created: 2 days ago\n    Ports: 0.0.0.0:8080->80/tcp\n    Image: nginx:latest\n    Networks: bridge\n    CPU Usage: 2.5%\n    Memory Usage: 256MB / 1GB\n    Logs (last 5 lines):\n      - 10.0.0.4 - - [15/Jun/2023:07:23:10 +0000] \"GET /api/users HTTP/1.1\" 200 1024\n      - 10.0.0.5 - - [15/Jun/2023:07:23:12 +0000] \"POST /api/login HTTP/1.1\" 401 256\n      - 10.0.0.4 - - [15/Jun/2023:07:23:14 +0000] \"GET /api/status HTTP/1.1\" 500 853\n      - Error: Failed to connect to database at 10.0.0.10:5432\n      - Attempting database reconnection (attempt 3 of 5)...\n    "

/-- The agent's `check_service_status` tool: canned service states, keyed by lowered name. -/
def check_service_status (service_name : String) : String :=
  let services : List (String × String) :=
    [ ("nginx", "active (running)")
    , ("docker", "active (running)")
    , ("kubernetes", "active (running)")
    , ("mysql", "inactive (dead)")
    , ("mongodb", "active (running)")
    , ("redis", "active (running)")
    ]
  let status :=
    match services.lookup (Py.pyLower service_name) with
    | some s => s
    | none => "not found"
  "Service " ++ service_name ++ ": " ++ status

/-- The `validate_configuration` tool: canned verdicts, keyed by exact path. -/
def validate_configuration (config_path : String) : String :=
  let configs : List (String × String) :=
    [ ("/etc/nginx/nginx.conf", "Configuration is valid")
    , ("/etc/kubernetes/config", "Warning: deprecated API versions found in line 42")
    , ("/etc/docker/daemon.json", "Error: Invalid JSON at line 17 - missing comma")
    , ("/etc/mysql/my.cnf", "Configuration is valid")
    ]
  match configs.lookup config_path with
  | some v => v
  | none => "Configuration file not found at " ++ config_path

/-- The `initialize_state` node: reset the session when the latest message is a
fresh human message and we are not waiting on an approval. -/
def initialize_state (state : AgentState) : AgentState :=
  match state.messages.getLast? with
  | none => state
  | some last =>
    if last.role = Role.human ∧ state.status ≠ Status.awaiting_approval then
      { messages := state.messages
        status := Status.planning
        current_plan := ""
        reflection := ""
        tool_history := []
        problem_understanding := last.content
        proposed_tool := ""
        user_input := "" }
    else state

/-- The `create_plan` node; `response` is the model completion. -/
def create_plan (state : AgentState) (response : String) : AgentState :=
  { state with
    messages := state.messages ++ [{ role := Role.ai, content := response }]
    status := Status.executing
    current_plan := response
    proposed_tool := "" }

/-- Tool-call extraction of `propose_tool`: the text between the first
` ```tool ` marker and the following ` ``` ` marker, stripped; `none` when the
marker is absent (Python leaves `tool_call = None`). -/
def extract_tool_call (content : String) : Option String :=
  if Py.pyContains content "```tool" then
    some (Py.pyStrip (Py.pyGet (Py.pySplit "```" (Py.pyGet (Py.pySplit "```tool" content) 1)) 0))
  else none

/-- The `propose_tool` node; `response` is the model completion.  Python tests
`if tool_call:`, under which `None` and the empty string both route to
reflection. -/
def propose_tool (state : AgentState) (response : String) : AgentState :=
  let updated_messages := state.messages ++ [{ role := Role.ai, content := response }]
  match extract_tool_call response with
  | some tc =>
    if tc = "" then
      { state with messages := updated_messages, status := Status.reflecting, proposed_tool := "" }
    else
      { state with messages := updated_messages, status := Status.awaiting_approval, proposed_tool := tc }
  | none =>
    { state with messages := updated_messages, status := Status.reflecting, proposed_tool := "" }

/-- The tool name used for dispatch: `tool_call.split("(")[0].strip()`. -/
def registeredToolName (tool_call : String) : String :=
  Py.pyStrip (Py.pyGet (Py.pySplit "(" tool_call) 0)

/-- Python `tool_call.split("(")[1].split(")")[0]`; raises `IndexError` (modelled
as `Except.error`) when the call string has no parenthesis. -/
def extractArgSegment (tool_call : String) : Except String String :=
  match (Py.pySplit "(" tool_call).get? 1 with
  | none => Except.error "list index out of range"
  | some seg => Except.ok (Py.pyGet (Py.pySplit ")" seg) 0)

/-- Strip Python quoting: `.replace('"', "").replace("'", "")`. -/
def pyDequote (s : String) : String :=
  Py.pyRemoveChar '\'' (Py.pyRemoveChar '"' s)

/-- The tool dispatch of `process_user_input`'s approval branch: parse the
argument text and run the named tool; `Except.error` models a raised exception
(index error on a missing parenthesis, unpack error on a wrong comma count). -/
def dispatchTool (tool_call : String) : Except String String :=
  let tool_name := registeredToolName tool_call
  if tool_name = "check_system_resources" then
    Except.ok check_system_resources
  else if tool_name = "analyze_logs" then
    (extractArgSegment tool_call).map (fun s => analyze_logs (pyDequote s))
  else if tool_name = "check_network_connectivity" then
    match extractArgSegment tool_call with
    | Except.error e => Except.error e
    | Except.ok params =>
      match (Py.pySplit "," params).map (fun p => pyDequote (Py.pyStrip p)) with
      | [a, b] => Except.ok (check_network_connectivity a b)
      | [_] => Except.error "not enough values to unpack (expected 2, got 1)"
      | [] => Except.error "not enough values to unpack (expected 2, got 0)"
      | _ => Except.error "too many values to unpack (expected 2)"
  else if tool_name = "check_container_status" then
    (extractArgSegment tool_call).map (fun s => check_container_status (pyDequote s))
  else if tool_name = "check_service_status" then
    (extractArgSegment tool_call).map (fun s => check_service_status (pyDequote s))
  else if tool_name = "validate_configuration" then
    (extractArgSegment tool_call).map (fun s => validate_configuration (pyDequote s))
  else
    Except.ok ("Unknown tool: " ++ tool_name)

/-- The approval test: `"approve" in user_input.lower() or "yes" in user_input.lower()`. -/
def isApproval (user_input : String) : Bool :=
  Py.pyContains (Py.pyLower user_input) "approve" || Py.pyContains (Py.pyLower user_input) "yes"

/-- The `process_user_input` node: resolve a pending approval; all other states
pass through unchanged. -/
def process_user_input (state : AgentState) : AgentState :=
  if state.status = Status.awaiting_approval then
    let tool_call := state.proposed_tool
    if isApproval state.user_input then
      match dispatchTool tool_call with
      | Except.ok result =>
        let tool_history := state.tool_history ++ ["Tool: " ++ tool_call ++ "\nResult: " ++ result]
        let next_status := if tool_history.length < 5 then Status.executing else Status.reflecting
        { state with
          messages := state.messages ++ [{ role := Role.human, content := "Tool result: " ++ result }]
          status := next_status
          tool_history := tool_history
          proposed_tool := ""
          user_input := "" }
      | Except.error e =>
        { state with
          messages := state.messages ++ [{ role := Role.human, content := "Error executing tool: " ++ e }]
          status := Status.reflecting
          tool_history := state.tool_history ++ ["Tool: " ++ tool_call ++ "\nError: " ++ e]
          proposed_tool := ""
          user_input := "" }
    else
      { state with
        messages := state.messages ++ [{ role := Role.human, content := "Tool execution denied: " ++ tool_call }]
        status := Status.executing
        tool_history := state.tool_history ++ ["Tool: " ++ tool_call ++ "\nStatus: Execution denied by user"]
        proposed_tool := ""
        user_input := "" }
  else state

/-- The continuation heuristic of `reflect`. -/
def needMoreInfo (content : String) : Bool :=
  Py.pyContains (Py.pyLower content) "need more information" ||
  Py.pyContains (Py.pyLower content) "should continue"

/-- The `reflect` node; `response` is the model completion.  The literal `10` is
`MAX_TOTAL_TOOL_CALLS`. -/
def reflect (state : AgentState) (response : String) : AgentState :=
  { state with
    messages := state.messages ++ [{ role := Role.ai, content := response }]
    status :=
      if needMoreInfo response ∧ state.tool_history.length < 10 then Status.executing
      else Status.finished
    reflection := response
    proposed_tool := "" }

/-- The `finish` node; `response` is the model completion. -/
def finish (state : AgentState) (response : String) : AgentState :=
  { state with
    messages := state.messages ++ [{ role := Role.ai, content := response }]
    status := Status.finished
    proposed_tool := "" }

/-- One application of any transition function of the workflow graph, with the
model completion existentially supplied where a node consults the model. -/
inductive Step : AgentState → AgentState → Prop where
  | init (s : AgentState) : Step s (initialize_state s)
  | plan (s : AgentState) (response : String) : Step s (create_plan s response)
  | propose (s : AgentState) (response : String) : Step s (propose_tool s response)
  | user (s : AgentState) : Step s (process_user_input s)
  | reflectStep (s : AgentState) (response : String) : Step s (reflect s response)
  | finishStep (s : AgentState) (response : String) : Step s (finish s response)

/-- The invariant of §3: a proposed tool is pending exactly in `awaiting_approval`. -/
def Inv (s : AgentState) : Prop :=
  s.proposed_tool ≠ "" ↔ s.status = Status.awaiting_approval

/-- The state `DevOpsTroubleshooter.start` hands to the graph. -/
def startState (problem : String) : AgentState :=
  { messages := [{ role := Role.human, content := problem }]
    status := Status.planning
    current_plan := ""
    reflection := ""
    tool_history := []
    problem_understanding := ""
    proposed_tool := ""
    user_input := "" }

/-- `DevOpsTroubleshooter.step`: a finished session is returned untouched,
otherwise the graph (`invoke`) runs, with any supplied user input written into
the state first. -/
def troubleshooterStep (invoke : AgentState → AgentState) (state : AgentState)
    (user_input : Option String) : AgentState :=
  if state.status = Status.finished then state
  else
    match user_input with
    | some ui => invoke { state with user_input := ui }
    | none => invoke state

end Agent

/-!
Embedding of `src/tools/get_troubleshooting_steps_tool.py`: a static keyed lookup
with a fallback record for unknown categories.
-/

namespace TSteps

structure TSStep where
  name : String
  commands : List String
deriving DecidableEq

structure TSInfo where
  steps : List TSStep
  common_fixes : List String
  other_tips : List String
deriving DecidableEq

/-- The `troubleshooting_map` literal, in its insertion order. -/
def troubleshooting_map : List (String × TSInfo) :=
  [ ("kyc_services",
     { steps :=
         [ { name := "Check if service-kyc tag exists in tags.json"
             commands := ["cat /etc/chef/chef/tags/qa.json | grep 'service_kyc'"] }
         , { name := "Check if required KYC service folders exist"
             commands :=
               [ "ls -la /home/git/regentmarkets/environment-manifests-qa/k8s/service-business-rules"
               , "ls -la /home/git/regentmarkets/environment-manifests-qa/k8s/service-kyc-rules" ] }
         , { name := "Fix missing service folders (if needed)"
             commands :=
               [ "# If service-business-rules is missing, run:"
               , "mkdir -p /home/git/regentmarkets/environment-manifests-qa/k8s/service-business-rules"
               , "rsync -avz qa61:/home/git/regentmarkets/environment-manifests-qa/k8s/service-business-rules/ /home/git/regentmarkets/environment-manifests-qa/k8s/service-business-rules/"
               , "# If service-kyc-rules is missing, run:"
               , "mkdir -p /home/git/regentmarkets/environment-manifests-qa/k8s/service-kyc-rules"
               , "rsync -avz qa61:/home/git/regentmarkets/environment-manifests-qa/k8s/service-kyc-rules/ /home/git/regentmarkets/environment-manifests-qa/k8s/service-kyc-rules/"
               , "# Copy related entries in values.yml"
               , "scp qa61:/home/git/regentmarkets/environment-manifests-qa/values/internal-services.yaml /tmp/qa61-internal-services.yaml"
               , "echo 'Compare and copy relevant KYC entries from /tmp/qa61-internal-services.yaml to your internal-services.yaml'"
               , "# Commit changes"
               , "cd /home/git/regentmarkets/environment-manifests-qa && git status"
               , "# Then add, commit and push changes if needed" ] }
         , { name := "Check hosts file for k8s-lb-local.deriv.local entry"
             commands :=
               [ "grep '10.14.20.218 k8s-lb-local.deriv.local' /etc/hosts || echo 'No k8s-lb-local.deriv.local entry found in /etc/hosts'" ] }
         , { name := "Restart BSDB"
             commands := ["cd /home/git/regentmarkets/bom-postgres-bsdb/kyc && make pgtap.port"] }
         , { name := "Check if KYC pods are running"
             commands := ["kubectl get pods -n <qabox e.g qa40>"] } ]
       common_fixes :=
         [ "Add service_kyc tag to /etc/chef/chef/tags/qa.json and run chef-client"
         , "Fix missing service folders (if needed)"
         , "Add this entry in hosts: echo '10.14.20.218 k8s-lb-local.deriv.local' | sudo tee -a /etc/hosts"
         , "Restard bsdb: cd /home/git/regentmarkets/bom-postgres-bsdb/kyc && make pgtap.port" ]
       other_tips :=
         [ "KYC service requires  service-kyc-rules and business-rules service to be running"
         , "Add this entry in hosts: echo '10.14.20.218 k8s-lb-local.deriv.local' in /etc/hosts"
         , "Restart all services" ] })
  , ("payment",
     { steps :=
         [ { name := "Check if service_payment tag exists"
             commands := ["cat /etc/chef/chef/tags/qa.json | grep service_payment"] }
         , { name := "Verify payment service pods are running"
             commands := ["kubectl get pods | grep payment-service"] }
         , { name := "Check payment database connection"
             commands :=
               [ "kubectl exec -it $(kubectl get pod -l app=payment-service -o jsonpath='\x7b.items[0].metadata.name\x7d') -- env | grep DATABASE"
               , "kubectl exec -it $(kubectl get pod -l app=payment-service -o jsonpath='\x7b.items[0].metadata.name\x7d') -- curl -s database-host:port" ] }
         , { name := "Check payment processor connectivity"
             commands :=
               [ "kubectl exec -it $(kubectl get pod -l app=payment-service -o jsonpath='\x7b.items[0].metadata.name\x7d') -- curl -s payment-gateway-url/status" ] } ]
       common_fixes :=
         [ "Add service_payment tag to /etc/chef/chef/tags/qa.json and run chef-client"
         , "Restart payment service: kubectl rollout restart deployment payment-service"
         , "Verify payment database credentials in secrets" ]
       other_tips :=
         [ "Payment service requires functioning network connection to payment processor"
         , "Check firewall rules for outbound connections to payment gateway"
         , "Verify SSL certificates for payment gateway are valid" ] })
  ]

/-- The keys of the map, i.e. `list(troubleshooting_map.keys())`. -/
def available_services : List String :=
  troubleshooting_map.map Prod.fst

/-- `get_service_troubleshooting_steps`: direct lookup, with the "not found"
fallback listing the available categories (`', '.join(available_services)`). -/
def get_service_troubleshooting_steps (service_name : String) : TSInfo :=
  match troubleshooting_map.lookup service_name with
  | some info => info
  | none =>
    { steps :=
        [ { name := "Service '" ++ service_name ++ "' not found in troubleshooting database"
            commands := ["echo 'Available services: " ++ String.intercalate ", " available_services ++ "'"] } ]
      common_fixes := ["Verify that the service name is correct"]
      other_tips := ["Available services: " ++ String.intercalate ", " available_services] }

end TSteps

/-!
Embedding of `src/tools/service_health_check_tool.py`.

All subprocess probes go through an oracle `run : String → Except String CmdOut`;
`Except.error e` models `subprocess.run` itself raising with message `e`.  The
kubernetes namespace (computed from the hostname at import time in the source)
is an explicit parameter `ns`.  The source's `try:` block is `tryBlock`, whose
`Except.error` cases are exactly the exceptions the block can raise: a failing
probe, the `IndexError` on `pod_info[4]` when `kubectl` yields exactly four
fields, and the `NameError` on the undefined `pod_status` in the short-output
branch; `check_service_status` is the surrounding `try`/`except`.
-/

namespace Health

structure CmdOut where
  returncode : Int
  stdout : String
  stderr : String

structure ServiceResult where
  name : String
  status : String
  running : Bool
  message : String
  error : Option String
deriving DecidableEq

/-- Continuation of the `Active:` regex after the lazy `(.*?)` group: either
`\s+since` or only whitespace to the end of the input (`\s*$`). -/
def wsStarLit (lit : List Char) : List Char → Bool
  | [] => lit.isEmpty
  | c :: cs => lit.isPrefixOf (c :: cs) || (Py.isPyWs c && wsStarLit lit cs)

def wsPlusLit (lit : List Char) : List Char → Bool
  | [] => false
  | c :: cs => Py.isPyWs c && wsStarLit lit cs

def allPyWs : List Char → Bool
  | [] => true
  | c :: cs => Py.isPyWs c && allPyWs cs

/-- Explore the lazy `(.*?)` group (any characters except a newline), checking
the continuation at every stop point. -/
def dotStarCheck : List Char → Bool
  | [] => wsPlusLit "since".data [] || allPyWs []
  | c :: cs =>
    wsPlusLit "since".data (c :: cs) || allPyWs (c :: cs) ||
      (c ≠ '\n' && dotStarCheck cs)

/-- Explore the `\s+` after `Active:` (its tail positions), starting `(.*?)` at
each of them. -/
def wsStarThenDotStar : List Char → Bool
  | [] => dotStarCheck []
  | c :: cs => dotStarCheck (c :: cs) || (Py.isPyWs c && wsStarThenDotStar cs)

def afterActiveColon : List Char → Bool
  | [] => false
  | c :: cs => Py.isPyWs c && wsStarThenDotStar cs

/-- Truthiness of `re.search(r'Active:\s+(.*?)(?:\s+since|\s*$)', stdout)`:
does a match start at some position? -/
def activeSearchGo : List Char → Bool
  | [] => false
  | c :: cs =>
    ("Active:".data.isPrefixOf (c :: cs) && afterActiveColon ((c :: cs).drop 7)) ||
      activeSearchGo cs

def activeSearch (s : String) : Bool :=
  activeSearchGo s.data

/-- The `try:` block of `check_service_status`, with the `result` dict threaded
through as a record; a probe raising propagates as `Except.error` to the
surrounding handler. -/
def tryBlock (run : String → Except String CmdOut) (ns : String) (service_name : String) :
    Except String ServiceResult :=
  let base : ServiceResult :=
    { name := service_name, status := "unknown", running := false, message := "", error := none }
  match run ("systemctl status " ++ service_name) with
  | Except.error e => Except.error e
  | Except.ok process =>
    if process.returncode = 0 then
      let r1 :=
        if Py.pyContains process.stdout "Loaded: loaded" then { base with status := "ok" }
        else { base with status := "Not loaded" }
      if activeSearch process.stdout then
        Except.ok { r1 with running := true, message := "System service: Loaded and running" }
      else
        Except.ok r1
    else
      match run ("docker ps --filter name=" ++ service_name ++ " --format '\x7b\x7b.Status\x7d\x7d'") with
      | Except.error e => Except.error e
      | Except.ok dockerOut =>
        if Py.pyStrip dockerOut.stdout ≠ "" then
          Except.ok { base with
            status := "ok"
            running := true
            message := "Docker container: " ++ Py.pyStrip dockerOut.stdout }
        else
          match run ("docker ps -a --filter name=" ++ service_name ++ " --format '\x7b\x7b.Status\x7d\x7d'") with
          | Except.error e => Except.error e
          | Except.ok dockerAll =>
            if Py.pyStrip dockerAll.stdout ≠ "" then
              Except.ok { base with
                status := "warning"
                running := false
                message := "Docker container exists but is not running: " ++ Py.pyStrip dockerAll.stdout }
            else
              match run ("kubectl get pods -n " ++ ns ++ " | grep " ++ service_name) with
              | Except.error e => Except.error e
              | Except.ok k8s =>
                if Py.pyStrip k8s.stdout ≠ "" then
                  let pod_info := Py.pySplitWs (Py.pyStrip k8s.stdout)
                  if pod_info.length ≥ 4 then
                    match pod_info.get? 4 with
                    | none => Except.error "list index out of range"
                    | some pod_age =>
                      let pod_status := Py.pyGet pod_info 2
                      let pod_restarts := Py.pyGet pod_info 3
                      if Py.pyLower pod_status = "running" then
                        Except.ok { base with
                          status := "ok"
                          running := true
                          message := "Kubernetes pod running in namespace " ++ ns ++
                            ".It's been up for " ++ pod_age ++ ". Number of restarts: " ++ pod_restarts }
                      else
                        Except.ok { base with
                          status := "warning"
                          running := false
                          message := "Kubernetes pod exists in namespace " ++ ns ++ " but status is: " ++
                            pod_status ++ ".It's been up for " ++ pod_age ++ ". Number of restarts: " ++ pod_restarts }
                  else
                    Except.error "name 'pod_status' is not defined"
                else
                  Except.ok { base with
                    status := "not found"
                    message := "Service not found in system services, Docker containers, or Kubernetes pods" }

/-- `check_service_status` of the health-check tool: run the `try:` block and
capture any exception into an error record. -/
def check_service_status (run : String → Except String CmdOut) (ns : String)
    (service_name : String) : ServiceResult :=
  match tryBlock run ns service_name with
  | Except.ok r => r
  | Except.error e =>
    { name := service_name
      status := "error"
      running := false
      message := "Error checking service: " ++ e
      error := some e }

/-- `DEFAULT_SERVICES` from `src/config/services_config.py`. -/
def DEFAULT_SERVICES : List String :=
  [ "crypto_cashier_paymentapi"
  , "kyc_identity_verification"
  , "service-kyc-rules"
  , "service-business-rule"
  , "passkeys"
  , "deriv-redis-passkeys"
  , "deriv-passkeys-gray"
  , "pgbouncer"
  , "pgbouncer-chart"
  , "pgbouncer-chart-gray"
  , "dd_agent" ]

/-- `check_services`: map the per-service check over the requested list,
defaulting to `DEFAULT_SERVICES`. -/
def check_services (run : String → Except String CmdOut) (ns : String)
    (services : Option (List String)) : List ServiceResult :=
  (services.getD DEFAULT_SERVICES).map (check_service_status run ns)

end Health

/-- Claim C1: every command matching a deny-list pattern makes the command tool
return the blocked outcome with no subprocess spawned, unconditionally, before
any execution. -/
theorem blocked_command_not_executed (runner : String → CmdExec.ExecResult)
    (command : String) (h : CmdExec.isDangerous command = true) :
    CmdExec.execute_shell_command_tool runner command =
      ("Error: Command blocked for security reasons.", []) := by
  simp [CmdExec.execute_shell_command_tool, h]

/-- Witness for C1: the three example commands of the spec are all deny-listed
and all come back blocked with an empty spawn trace. -/
theorem blocked_command_not_executed_witness :
    CmdExec.isDangerous "rm -rf /" = true ∧
    CmdExec.isDangerous "chmod 777 /etc/passwd" = true ∧
    CmdExec.isDangerous "dd if=/dev/zero of=/dev/sda" = true ∧
    CmdExec.execute_shell_command_tool (fun _ => CmdExec.ExecResult.timedOut) "rm -rf /" =
      ("Error: Command blocked for security reasons.", []) ∧
    CmdExec.execute_shell_command_tool (fun _ => CmdExec.ExecResult.timedOut) "chmod 777 /etc/passwd" =
      ("Error: Command blocked for security reasons.", []) ∧
    CmdExec.execute_shell_command_tool (fun _ => CmdExec.ExecResult.timedOut) "dd if=/dev/zero of=/dev/sda" =
      ("Error: Command blocked for security reasons.", []) :=
  ⟨by decide, by decide, by decide,
   blocked_command_not_executed _ _ (by decide),
   blocked_command_not_executed _ _ (by decide),
   blocked_command_not_executed _ _ (by decide)⟩

/-- Claim C2: the reflection transition goes to `executing` exactly when the
reflection text carries a continuation keyword and fewer than 10 tool calls are
recorded; otherwise it goes to `finished`, and from 10 recorded calls on it is
always `finished`. -/
theorem reflect_transition_bounded (state : Agent.AgentState) (response : String) :
    ((Agent.reflect state response).status = Agent.Status.executing ↔
      (Agent.needMoreInfo response = true ∧ state.tool_history.length < 10)) ∧
    ((Agent.reflect state response).status = Agent.Status.executing ∨
      (Agent.reflect state response).status = Agent.Status.finished) ∧
    (10 ≤ state.tool_history.length →
      (Agent.reflect state response).status = Agent.Status.finished) := by
  unfold Agent.reflect
  by_cases h : Agent.needMoreInfo response = true ∧ state.tool_history.length < 10
  · simp [h]
  · simp [h]

/-- Witness for C2: with ten recorded tool calls the reflection transition is
`finished` even though the text asks to continue. -/
theorem reflect_transition_bounded_witness :
    (10 ≤ (List.replicate 10 "Tool: x\nResult: y").length) ∧
    (Agent.reflect
      { messages := [], current_plan := "", reflection := "",
        tool_history := List.replicate 10 "Tool: x\nResult: y",
        problem_understanding := "", status := Agent.Status.reflecting,
        proposed_tool := "", user_input := "" }
      "I need more information, we should continue").status = Agent.Status.finished :=
  ⟨by decide,
   (reflect_transition_bounded _ "I need more information, we should continue").2.2 (by decide)⟩

/-- Claim C5: `step` on a finished session returns the session unchanged. -/
theorem finished_step_absorbing (invoke : Agent.AgentState → Agent.AgentState)
    (state : Agent.AgentState) (user_input : Option String)
    (h : state.status = Agent.Status.finished) :
    Agent.troubleshooterStep invoke state user_input = state := by
  simp [Agent.troubleshooterStep, h]

/-- Witness for C5: a concrete finished session absorbs a step with input. -/
theorem finished_step_absorbing_witness :
    Agent.troubleshooterStep (fun s => Agent.process_user_input s)
      { messages := [], current_plan := "p", reflection := "r",
        tool_history := ["Tool: t\nResult: ok"], problem_understanding := "u",
        status := Agent.Status.finished, proposed_tool := "", user_input := "" }
      (some "yes, approve") =
      { messages := [], current_plan := "p", reflection := "r",
        tool_history := ["Tool: t\nResult: ok"], problem_understanding := "u",
        status := Agent.Status.finished, proposed_tool := "", user_input := "" } :=
  finished_step_absorbing _ _ (some "yes, approve") rfl

/-- Claim C7: an unknown service category yields the fallback record listing the
available categories, with non-empty steps, fixes and tips, and no exception. -/
theorem unknown_category_fallback (service_name : String)
    (h1 : service_name ≠ "kyc_services") (h2 : service_name ≠ "payment") :
    TSteps.get_service_troubleshooting_steps service_name =
      { steps :=
          [ { name := "Service '" ++ service_name ++ "' not found in troubleshooting database"
              commands := ["echo 'Available services: kyc_services, payment'"] } ]
        common_fixes := ["Verify that the service name is correct"]
        other_tips := ["Available services: kyc_services, payment"] } ∧
    (TSteps.get_service_troubleshooting_steps service_name).steps ≠ [] ∧
    (TSteps.get_service_troubleshooting_steps service_name).common_fixes ≠ [] ∧
    (TSteps.get_service_troubleshooting_steps service_name).other_tips ≠ [] := by
  have e1 : (service_name == "kyc_services") = false := by
    simp [h1]
  have e2 : (service_name == "payment") = false := by
    simp [h2]
  have hl : TSteps.troubleshooting_map.lookup service_name = none := by
    simp [TSteps.troubleshooting_map, List.lookup, e1, e2]
  have hmain : TSteps.get_service_troubleshooting_steps service_name =
      { steps :=
          [ { name := "Service '" ++ service_name ++ "' not found in troubleshooting database"
              commands := ["echo 'Available services: kyc_services, payment'"] } ]
        common_fixes := ["Verify that the service name is correct"]
        other_tips := ["Available services: kyc_services, payment"] } := by
    unfold TSteps.get_service_troubleshooting_steps
    rw [hl]
    rfl
  exact ⟨hmain, by rw [hmain]; simp, by rw [hmain]; simp, by rw [hmain]; simp⟩

/-- Witness for C7: the spec's Scenario D category. -/
theorem unknown_category_fallback_witness :
    TSteps.get_service_troubleshooting_steps "foo_services" =
      { steps :=
          [ { name := "Service 'foo_services' not found in troubleshooting database"
              commands := ["echo 'Available services: kyc_services, payment'"] } ]
        common_fixes := ["Verify that the service name is correct"]
        other_tips := ["Available services: kyc_services, payment"] } :=
  (unknown_category_fallback "foo_services" (by decide) (by decide)).1

/-- Claim C3: resolving a pending approval appends exactly one record and clears
the proposal in every branch; on a successful approved execution the next state
is `executing` below the bound of 5 recorded calls and `reflecting` at it; on a
raising execution it is `reflecting`; on denial it is `executing`. -/
theorem approval_resolution_branches (state : Agent.AgentState)
    (h : state.status = Agent.Status.awaiting_approval) :
    ((Agent.process_user_input state).tool_history.length = state.tool_history.length + 1) ∧
    ((Agent.process_user_input state).proposed_tool = "") ∧
    (∀ r, Agent.isApproval state.user_input = true →
      Agent.dispatchTool state.proposed_tool = Except.ok r →
      (Agent.process_user_input state).tool_history =
        state.tool_history ++ ["Tool: " ++ state.proposed_tool ++ "\nResult: " ++ r] ∧
      (Agent.process_user_input state).status =
        (if state.tool_history.length + 1 < 5 then Agent.Status.executing
         else Agent.Status.reflecting)) ∧
    (∀ e, Agent.isApproval state.user_input = true →
      Agent.dispatchTool state.proposed_tool = Except.error e →
      (Agent.process_user_input state).tool_history =
        state.tool_history ++ ["Tool: " ++ state.proposed_tool ++ "\nError: " ++ e] ∧
      (Agent.process_user_input state).status = Agent.Status.reflecting) ∧
    (Agent.isApproval state.user_input = false →
      (Agent.process_user_input state).tool_history =
        state.tool_history ++ ["Tool: " ++ state.proposed_tool ++ "\nStatus: Execution denied by user"] ∧
      (Agent.process_user_input state).status = Agent.Status.executing) := by
  unfold Agent.process_user_input
  by_cases ha : Agent.isApproval state.user_input = true
  · cases hd : Agent.dispatchTool state.proposed_tool with
    | ok r => simp [h, ha, hd]
    | error e => simp [h, ha, hd]
  · simp [h, ha]

/-- Witness for C3: a denied approval on a concrete session appends the denial
record and returns to `executing`. -/
theorem approval_resolution_branches_witness :
    (Agent.process_user_input
      { messages := [], current_plan := "p", reflection := "",
        tool_history := [], problem_understanding := "u",
        status := Agent.Status.awaiting_approval,
        proposed_tool := "check_service_status(nginx)", user_input := "no" }).tool_history =
      [ "Tool: check_service_status(nginx)\nStatus: Execution denied by user" ] ∧
    (Agent.process_user_input
      { messages := [], current_plan := "p", reflection := "",
        tool_history := [], problem_understanding := "u",
        status := Agent.Status.awaiting_approval,
        proposed_tool := "check_service_status(nginx)", user_input := "no" }).status =
      Agent.Status.executing :=
  (approval_resolution_branches _ rfl).2.2.2.2 (by decide)

/-- Claim C4: a pending tool proposal exists exactly in the `awaiting_approval`
status; every transition function preserves this, so it holds in every session
reachable from a fresh one. -/
theorem proposed_tool_iff_awaiting_approval :
    (∀ s s', Agent.Inv s → Agent.Step s s' → Agent.Inv s') ∧
    (∀ problem s, Relation.ReflTransGen Agent.Step (Agent.startState problem) s →
      Agent.Inv s) := by
  have pres : ∀ s s', Agent.Inv s → Agent.Step s s' → Agent.Inv s' := by
    intro s s' hInv hs
    cases hs with
    | init =>
      unfold Agent.initialize_state
      cases hL : s.messages.getLast? with
      | none => exact hInv
      | some last =>
        by_cases hc : last.role = Agent.Role.human ∧ s.status ≠ Agent.Status.awaiting_approval
        · simp [hc, Agent.Inv]
        · simpa [hc] using hInv
    | plan response => simp [Agent.create_plan, Agent.Inv]
    | propose response =>
      unfold Agent.propose_tool
      cases hE : Agent.extract_tool_call response with
      | none => simp [hE, Agent.Inv]
      | some tc =>
        by_cases htc : tc = ""
        · simp [hE, htc, Agent.Inv]
        · simp [hE, htc, Agent.Inv]
    | user =>
      unfold Agent.process_user_input
      by_cases hst : s.status = Agent.Status.awaiting_approval
      · simp only [hst, if_pos rfl]
        by_cases ha : Agent.isApproval s.user_input = true
        · cases hd : Agent.dispatchTool s.proposed_tool with
          | ok r =>
            simp [ha, hd, Agent.Inv]
            split <;> simp
          | error e => simp [ha, hd, Agent.Inv]
        · simp [ha, Agent.Inv]
      · simpa [hst] using hInv
    | reflectStep response =>
      unfold Agent.reflect
      simp [Agent.Inv]
      split <;> simp
    | finishStep response => simp [Agent.finish, Agent.Inv]
  refine ⟨pres, ?_⟩
  intro problem s h
  induction h with
  | refl => simp [Agent.Inv, Agent.startState]
  | tail hsteps hstep ih => exact pres _ _ ih hstep

/-- Witness for C4: the invariant holds at a freshly started session. -/
theorem proposed_tool_iff_awaiting_approval_witness :
    Agent.Inv (Agent.startState "nginx returning 502s") :=
  proposed_tool_iff_awaiting_approval.2 "nginx returning 502s" _ Relation.ReflTransGen.refl

/-- Counterexample to claim C6: a model output whose fenced content is the bare
word `analyze_logs` — malformed tool-call syntax, whose later dispatch raises an
index error — is not treated as "no tool call": the session moves to
`awaiting_approval`, not `reflecting`, with the malformed text as the proposed
tool. -/
theorem malformed_call_reaches_approval :
    (Agent.propose_tool (Agent.startState "db down") "```tool\nanalyze_logs\n```").status =
      Agent.Status.awaiting_approval ∧
    (Agent.propose_tool (Agent.startState "db down") "```tool\nanalyze_logs\n```").status ≠
      Agent.Status.reflecting ∧
    (Agent.propose_tool (Agent.startState "db down") "```tool\nanalyze_logs\n```").proposed_tool =
      "analyze_logs" ∧
    Agent.dispatchTool "analyze_logs" = Except.error "list index out of range" :=
  ⟨by decide, by decide, by decide, rfl⟩

/-- Claim C6 as amended: the proposal step extracts the stripped text between
the first ```tool marker and the following ``` marker; the session moves to
`awaiting_approval` exactly when that extraction exists and is non-empty (no
further check of the call syntax), and to `reflecting` otherwise — never to any
other state and never to an error. -/
theorem propose_tool_fence_extraction (state : Agent.AgentState) (response : String) :
    ((Agent.propose_tool state response).status = Agent.Status.awaiting_approval ↔
      (∃ tc, Agent.extract_tool_call response = some tc ∧ tc ≠ "")) ∧
    ((Agent.propose_tool state response).status = Agent.Status.awaiting_approval ∨
      (Agent.propose_tool state response).status = Agent.Status.reflecting) ∧
    ((Agent.extract_tool_call response = none ∨ Agent.extract_tool_call response = some "") →
      (Agent.propose_tool state response).status = Agent.Status.reflecting) ∧
    (∀ tc, Agent.extract_tool_call response = some tc → tc ≠ "" →
      (Agent.propose_tool state response).proposed_tool = tc) := by
  unfold Agent.propose_tool
  cases hE : Agent.extract_tool_call response with
  | none => simp [hE]
  | some tc =>
    by_cases htc : tc = ""
    · subst htc
      simp [hE]
    · simp [hE, htc]

/-- Witness for C6 (amended): an output with no tool fence routes to
reflection, and a fenced call is proposed verbatim. -/
theorem propose_tool_fence_extraction_witness :
    (Agent.propose_tool (Agent.startState "db down") "No further action needed.").status =
      Agent.Status.reflecting ∧
    (Agent.propose_tool (Agent.startState "db down")
      "```tool\ncheck_service_status(nginx)\n```").proposed_tool =
      "check_service_status(nginx)" :=
  ⟨(propose_tool_fence_extraction _ "No further action needed.").2.2.1 (Or.inl (by decide)),
   (propose_tool_fence_extraction _ "```tool\ncheck_service_status(nginx)\n```").2.2.2
     "check_service_status(nginx)" (by decide) (by decide)⟩

/-- Claim C8: in `awaiting_approval`, the human response counts as an approval
exactly when its lower-cased text contains "approve" or "yes"; every other
response yields the denial record and a return to `executing`, and the only
possible appended records are result, error or denial — there is no modify
outcome. -/
theorem approval_keyword_classification (state : Agent.AgentState)
    (h : state.status = Agent.Status.awaiting_approval) :
    (Agent.isApproval state.user_input =
      (Py.pyContains (Py.pyLower state.user_input) "approve" ||
       Py.pyContains (Py.pyLower state.user_input) "yes")) ∧
    (Agent.isApproval state.user_input = false →
      (Agent.process_user_input state).tool_history =
        state.tool_history ++ ["Tool: " ++ state.proposed_tool ++ "\nStatus: Execution denied by user"] ∧
      (Agent.process_user_input state).status = Agent.Status.executing) ∧
    (Agent.isApproval state.user_input = true →
      (∃ r, (Agent.process_user_input state).tool_history =
        state.tool_history ++ ["Tool: " ++ state.proposed_tool ++ "\nResult: " ++ r]) ∨
      (∃ e, (Agent.process_user_input state).tool_history =
        state.tool_history ++ ["Tool: " ++ state.proposed_tool ++ "\nError: " ++ e])) := by
  refine ⟨rfl, ?_, ?_⟩
  · intro ha
    unfold Agent.process_user_input
    simp [h, ha]
  · intro ha
    unfold Agent.process_user_input
    cases hd : Agent.dispatchTool state.proposed_tool with
    | ok r =>
      left
      exact ⟨r, by simp [h, ha, hd]⟩
    | error e =>
      right
      exact ⟨e, by simp [h, ha, hd]⟩

/-- Witness for C8: the empty response is a denial, and a response containing
"approve" inside other words still counts as approval. -/
theorem approval_keyword_classification_witness :
    (Agent.process_user_input
      { messages := [], current_plan := "", reflection := "",
        tool_history := [], problem_understanding := "",
        status := Agent.Status.awaiting_approval,
        proposed_tool := "analyze_logs(nginx)", user_input := "" }).status =
      Agent.Status.executing ∧
    Agent.isApproval "Yes go ahead" = true :=
  ⟨((approval_keyword_classification _ rfl).2.1 (by decide)).2, by decide⟩

/-- Claim C9: an approved call naming an unregistered tool dispatches to the
"Unknown tool" result and is recorded as a successful execution — the record
text is `Tool: ...\nResult: Unknown tool: <name>` and the session continues to
`executing` whenever the new history length is below 5 — rather than an error
record routing to `reflecting`. -/
theorem unknown_tool_recorded_ok (state : Agent.AgentState)
    (h : state.status = Agent.Status.awaiting_approval)
    (ha : Agent.isApproval state.user_input = true)
    (hn : Agent.registeredToolName state.proposed_tool ∉
      (["check_system_resources", "analyze_logs", "check_network_connectivity",
        "check_container_status", "check_service_status", "validate_configuration"] : List String)) :
    Agent.dispatchTool state.proposed_tool =
      Except.ok ("Unknown tool: " ++ Agent.registeredToolName state.proposed_tool) ∧
    (Agent.process_user_input state).tool_history =
      state.tool_history ++
        ["Tool: " ++ state.proposed_tool ++ "\nResult: " ++
          ("Unknown tool: " ++ Agent.registeredToolName state.proposed_tool)] ∧
    (Agent.process_user_input state).status =
      (if state.tool_history.length + 1 < 5 then Agent.Status.executing
       else Agent.Status.reflecting) := by
  simp only [List.mem_cons, List.mem_singleton, not_or] at hn
  obtain ⟨h1, h2, h3, h4, h5, h6⟩ := hn
  have hd : Agent.dispatchTool state.proposed_tool =
      Except.ok ("Unknown tool: " ++ Agent.registeredToolName state.proposed_tool) := by
    unfold Agent.dispatchTool
    simp [h1, h2, h3, h4, h5, h6]
  refine ⟨hd, ?_, ?_⟩ <;>
    · unfold Agent.process_user_input
      simp [h, ha, hd]

/-- Witness for C9: approving `restart_server(nginx)` — not a registered tool —
appends an ok record and keeps executing. -/
theorem unknown_tool_recorded_ok_witness :
    (Agent.process_user_input
      { messages := [], current_plan := "", reflection := "",
        tool_history := [], problem_understanding := "",
        status := Agent.Status.awaiting_approval,
        proposed_tool := "restart_server(nginx)", user_input := "yes" }).tool_history =
      ["Tool: restart_server(nginx)\nResult: Unknown tool: restart_server"] ∧
    (Agent.process_user_input
      { messages := [], current_plan := "", reflection := "",
        tool_history := [], problem_understanding := "",
        status := Agent.Status.awaiting_approval,
        proposed_tool := "restart_server(nginx)", user_input := "yes" }).status =
      Agent.Status.executing := by
  have h := unknown_tool_recorded_ok
    { messages := [], current_plan := "", reflection := "",
      tool_history := [], problem_understanding := "",
      status := Agent.Status.awaiting_approval,
      proposed_tool := "restart_server(nginx)", user_input := "yes" }
    rfl (by decide) (by decide)
  exact ⟨by simpa using h.2.1, by simpa using h.2.2⟩

/-- Helper for C10: an ok outcome of the `try:` block keeps the `name` field
equal to the probed service name. -/
theorem tryBlock_name (run : String → Except String Health.CmdOut)
    (ns s : String) (r : Health.ServiceResult)
    (h : Health.tryBlock run ns s = Except.ok r) : r.name = s := by
  unfold Health.tryBlock at h
  dsimp only at h
  repeat' split at h
  all_goals first
    | exact (Except.noConfusion h)
    | (cases h; rfl)

/-- Helper for C10: every branch of the per-service check keeps the `name`
field equal to the probed service name. -/
theorem check_service_status_name (run : String → Except String Health.CmdOut)
    (ns s : String) : (Health.check_service_status run ns s).name = s := by
  unfold Health.check_service_status
  cases h : Health.tryBlock run ns s with
  | ok r => exact tryBlock_name run ns s r h
  | error e => rfl

/-- Claim C10: `check_services` returns one record per requested service, in
order, with the i-th `name` equal to the i-th input (so the field is always
present), and a probe raising anywhere is captured into that service's record
with status "error" instead of propagating. -/
theorem check_services_pointwise (run : String → Except String Health.CmdOut)
    (ns : String) (services : List String) :
    ((Health.check_services run ns (some services)).map Health.ServiceResult.name = services) ∧
    ((Health.check_services run ns (some services)).length = services.length) ∧
    (∀ s e, Health.tryBlock run ns s = Except.error e →
      Health.check_service_status run ns s =
        { name := s, status := "error", running := false,
          message := "Error checking service: " ++ e, error := some e }) := by
  refine ⟨?_, ?_, ?_⟩
  · have key : ∀ l : List String,
        (l.map (Health.check_service_status run ns)).map Health.ServiceResult.name = l := by
      intro l
      induction l with
      | nil => rfl
      | cons a t ih => simp [check_service_status_name, ih]
    simpa [Health.check_services] using key services
  · simp [Health.check_services]
  · intro s e he
    unfold Health.check_service_status
    rw [he]

/-- Witness for C10: with a probe oracle that always raises, both requested
services come back, in order, as error records. -/
theorem check_services_pointwise_witness :
    ((Health.check_services (fun _ => Except.error "boom") "qa40"
        (some ["nginx", "redis"])).map Health.ServiceResult.name = ["nginx", "redis"]) ∧
    Health.check_service_status (fun _ => Except.error "boom") "qa40" "nginx" =
      { name := "nginx", status := "error", running := false,
        message := "Error checking service: boom", error := some "boom" } :=
  ⟨(check_services_pointwise (fun _ => Except.error "boom") "qa40" ["nginx", "redis"]).1,
   (check_services_pointwise (fun _ => Except.error "boom") "qa40" ["nginx", "redis"]).2.2
     "nginx" "boom" rfl⟩
